import Mathlib

/-
  Verification development for the llmaps-agent meal-planning pipeline.

  Shallow embedding of the Python sources:
    src/configuration.py  (Configuration, SearchAPI, from_runnable_config)
    src/state.py          (MealPlanState and the langgraph merge semantics)
    src/meal_prompts.py   (FINAL_REPORT_TEMPLATE)
    src/meal_utils.py     (format_ingredients_list, format_store_recommendations,
                           generate_final_report)
    src/graph.py          (search_recipes, parse_recipe, find_stores,
                           create_report, and the linear pipeline)

  External collaborators (the language model and the two web-search backends,
  living in the repository's utils.py, which only exposes thin API wrappers)
  are modelled as an oracle environment `Env`: each call site receives either a
  raised exception or a response; a model response is carried together with the
  outcome of `json.loads` on its body, since the JSON codec itself is Python's
  standard library.  Python exceptions are modelled by `PyErr`, and dynamically
  typed Python values flowing through the pipeline by `Json` (for model/search
  data) and `PyVal` (for configuration values).
-/

/-! ### JSON-ish dynamic values -/

/-- A JSON value, also used for every dynamically typed Python value the
pipeline threads between stages (search batches, parsed model output,
ingredient/store records). -/
inductive Json where
  | null
  | bool (b : Bool)
  | num (n : Int)
  | str (s : String)
  | arr (elems : List Json)
  | obj (members : List (String × Json))

/-- A Python exception, by class and message (`str(e)` is the message). -/
inductive PyErr where
  | jsonDecodeError (msg : String)
  | valueError (msg : String)
  | typeError (msg : String)
  | keyError (msg : String)
  | attributeError (msg : String)
  | indexError (msg : String)
  | apiError (msg : String)
deriving DecidableEq

/-- Message of `str(e)` for an exception (`msg` is stored already rendered). -/
def pyErrStr : PyErr → String
  | .jsonDecodeError m => m
  | .valueError m => m
  | .typeError m => m
  | .keyError m => m
  | .attributeError m => m
  | .indexError m => m
  | .apiError m => m

/-- First-match association-list lookup, Python `dict` access on our
`obj` representation. -/
def alookupJ : List (String × Json) → String → Option Json
  | [], _ => none
  | (k, v) :: rest, key => if k == key then some v else alookupJ rest key

mutual
/-- Python `repr` of a JSON-ish value (string escaping inside `repr` of a
string is not modelled; no claim depends on it). -/
def pyReprOf : Json → String
  | .null => "None"
  | .bool b => if b then "True" else "False"
  | .num n => toString n
  | .str s => "\x27" ++ s ++ "\x27"
  | .arr l => "[" ++ pyReprList l ++ "]"
  | .obj kvs => "\x7b" ++ pyReprObj kvs ++ "\x7d"

/-- Comma-joined `repr`s of list elements. -/
def pyReprList : List Json → String
  | [] => ""
  | [x] => pyReprOf x
  | x :: xs => pyReprOf x ++ ", " ++ pyReprList xs

/-- Comma-joined `repr`s of dict entries. -/
def pyReprObj : List (String × Json) → String
  | [] => ""
  | [(k, v)] => "\x27" ++ k ++ "\x27: " ++ pyReprOf v
  | (k, v) :: xs => "\x27" ++ k ++ "\x27: " ++ pyReprOf v ++ ", " ++ pyReprObj xs
end

/-- Python `str()` of a JSON-ish value (as used by f-string interpolation). -/
def pyStrOf : Json → String
  | .str s => s
  | j => pyReprOf j

/-- Python truthiness of a JSON-ish value. -/
def pyTruthy : Json → Bool
  | .null => false
  | .bool b => b
  | .num n => n != 0
  | .str s => s != ""
  | .arr l => !l.isEmpty
  | .obj kvs => !kvs.isEmpty

/-- Python `j[k]` subscription with a string key. -/
def jsonGetItem (j : Json) (k : String) : Except PyErr Json :=
  match j with
  | .obj kvs =>
    match alookupJ kvs k with
    | some v => .ok v
    | none => .error (.keyError ("\x27" ++ k ++ "\x27"))
  | .str _ => .error (.typeError "string indices must be integers")
  | .arr _ => .error (.typeError "list indices must be integers or slices, not str")
  | _ => .error (.typeError "object is not subscriptable")

/-- Python `j.get(k, d)`: only dicts have `.get`; anything else raises
`AttributeError`. -/
def pyGet (j : Json) (k : String) (d : Json) : Except PyErr Json :=
  match j with
  | .obj kvs => .ok ((alookupJ kvs k).getD d)
  | _ => .error (.attributeError "object has no attribute \x27get\x27")

/-- Python iteration `for x in j`: lists yield elements, strings yield
one-character strings, dicts yield their keys; everything else raises
`TypeError`. -/
def pyIter (j : Json) : Except PyErr (List Json) :=
  match j with
  | .arr l => .ok l
  | .str s => .ok (s.data.map fun c => .str (String.mk [c]))
  | .obj kvs => .ok (kvs.map fun kv => .str kv.1)
  | _ => .error (.typeError "object is not iterable")

/-- Boolean list-prefix test, for Python substring membership. -/
def isPrefixListB : List Char → List Char → Bool
  | [], _ => true
  | _ :: _, [] => false
  | a :: as, b :: bs => a == b && isPrefixListB as bs

/-- Boolean list-infix test, for Python substring membership. -/
def isInfixListB (pat : List Char) : List Char → Bool
  | [] => isPrefixListB pat []
  | b :: bs => isPrefixListB pat (b :: bs) || isInfixListB pat bs

/-- Python `k in j` for a string `k`: key membership on dicts, substring test
on strings, element equality on lists; raises `TypeError` on non-containers. -/
def pyKeyIn (j : Json) (k : String) : Except PyErr Bool :=
  match j with
  | .obj kvs => .ok (alookupJ kvs k).isSome
  | .str s => .ok (isInfixListB k.data s.data)
  | .arr l => .ok (l.any fun x => match x with | .str s => s == k | _ => false)
  | _ => .error (.typeError "argument of type is not iterable")

/-- Python `all(key in j for key in keys)`: short-circuits at the first absent
key; whether `in` raises does not depend on the key, so the (unordered) Python
set iteration order is immaterial. -/
def allKeysIn (j : Json) : List String → Except PyErr Bool
  | [] => .ok true
  | k :: ks => do
    let b ← pyKeyIn j k
    if b then allKeysIn j ks else pure false

/-- Condition `isinstance(j, dict) and key in j`. -/
def isObjWithKey (j : Json) (k : String) : Bool :=
  match j with
  | .obj kvs => (alookupJ kvs k).isSome
  | _ => false

/-- Python whitespace (the characters `str.strip` removes). -/
def isPySpace (c : Char) : Bool :=
  c == ' ' || c == '\t' || c == '\n' || c == '\x0d' || c == '\x0b' || c == '\x0c'

/-- Python `s.strip()`: drop leading and trailing whitespace only. -/
def pyStrip (s : String) : String :=
  String.mk (((s.data.dropWhile isPySpace).reverse.dropWhile isPySpace).reverse)

/-- Python `', '.join(j)`: iterate `j` and require every element to be a
string. -/
def pyJoinComma (j : Json) : Except PyErr String := do
  let items ← pyIter j
  let strs ← items.mapM fun x =>
    match x with
    | Json.str s => Except.ok s
    | _ => Except.error (PyErr.typeError "sequence item: expected str instance")
  pure (String.intercalate ", " strs)

/-! ### Configuration (src/configuration.py) -/

/-- Enum `SearchAPI` from src/configuration.py. -/
inductive SearchAPI where
  | PERPLEXITY
  | TAVILY
deriving DecidableEq

/-- A dynamically typed configuration value, as a Python dataclass field can
hold whatever the resolution produced (environment values are strings even for
int-typed fields). -/
inductive PyVal where
  | none
  | str (s : String)
  | int (n : Int)
  | bool (b : Bool)
  | searchApi (a : SearchAPI)
deriving DecidableEq

/-- Python truthiness of a configuration value. -/
def PyVal.isTruthy : PyVal → Bool
  | .none => false
  | .str s => s != ""
  | .int n => n != 0
  | .bool b => b
  | .searchApi _ => true

/-- Dataclass `Configuration` from src/configuration.py, with its built-in
field defaults.  Fields are `PyVal` because `from_runnable_config` performs no
type conversion. -/
structure Configuration where
  max_web_research_loops : PyVal := .int 3
  model_name : PyVal := .str "gpt-4-0125-preview"
  search_api : PyVal := .searchApi .TAVILY
  max_store_recommendations : PyVal := .int 3
  include_price_estimates : PyVal := .bool true
  max_recipe_alternatives : PyVal := .int 2

/-- First-match lookup in a string-keyed association list. -/
def alookupS : List (String × String) → String → Option String
  | [], _ => none
  | (k, v) :: rest, key => if k == key then some v else alookupS rest key

/-- First-match lookup in a `PyVal`-valued association list. -/
def alookupV : List (String × PyVal) → String → Option PyVal
  | [], _ => none
  | (k, v) :: rest, key => if k == key then some v else alookupV rest key

/-- Python `fname.upper()` (field names are ASCII). -/
def pyUpper (s : String) : String := String.mk (s.data.map Char.toUpper)

/-- One entry of the `values` dict comprehension:
`os.environ.get(f.name.upper(), configurable.get(f.name))` — the environment
value (a string) if the upper-cased field name is set, else the explicit
per-run value, else Python `None`. -/
def resolveField (env : List (String × String)) (conf : List (String × PyVal))
    (fname : String) : PyVal :=
  match alookupS env (pyUpper fname) with
  | some s => .str s
  | Option.none =>
    match alookupV conf fname with
    | some v => v
    | Option.none => .none

/-- Value a dataclass field receives: the resolved value when truthy (the
`if v` filter), otherwise the built-in default. -/
def pickField (env : List (String × String)) (conf : List (String × PyVal))
    (fname : String) (dflt : PyVal) : PyVal :=
  let v := resolveField env conf fname
  if v.isTruthy then v else dflt

/-- `Configuration.from_runnable_config` from src/configuration.py: the
process environment is `env`, the `config["configurable"]` dict is `conf`. -/
def Configuration.from_runnable_config (env : List (String × String))
    (conf : List (String × PyVal)) : Configuration :=
  { max_web_research_loops := pickField env conf "max_web_research_loops" (.int 3)
    model_name := pickField env conf "model_name" (.str "gpt-4-0125-preview")
    search_api := pickField env conf "search_api" (.searchApi .TAVILY)
    max_store_recommendations := pickField env conf "max_store_recommendations" (.int 3)
    include_price_estimates := pickField env conf "include_price_estimates" (.bool true)
    max_recipe_alternatives := pickField env conf "max_recipe_alternatives" (.int 2) }

/-! ### Pipeline state (src/state.py) -/

/-- Dataclass `MealPlanState` from src/state.py.  `ingredients` and
`instructions` are `Json` because `parse_recipe` stores whatever the model's
JSON held; `store_recommendations` is always a Python list (both branches of
`find_stores` build one). -/
structure MealPlanState where
  location : Option String := none
  cuisine_preference : Option String := none
  dietary_restrictions : List String := []
  flavor_preference : Option String := none
  recipe_name : Option Json := none
  ingredients : Json := .arr []
  instructions : Json := .arr []
  store_recommendations : List Json := []
  web_research_results : List Json := []
  sources_gathered : List String := []
  final_report : Option String := none

/-- Dataclass `MealPlanStateInput` from src/state.py. -/
structure MealPlanStateInput where
  location : Option String := none
  cuisine_preference : Option String := none
  dietary_restrictions : List String := []
  flavor_preference : Option String := none

/-- A stage's partial state update (the dict a node returns).  `none` / `[]`
means the key is absent from the returned dict. -/
structure StateUpdate where
  recipe_name : Option Json := none
  ingredients : Option Json := none
  instructions : Option Json := none
  store_recommendations : Option (List Json) := none
  web_research_results : List Json := []
  sources_gathered : List String := []
  final_report : Option String := none

/-- Langgraph merge of a partial update into the running state: plain fields
are replaced when present; the two `Annotated[list, operator.add]` fields
(`web_research_results`, `sources_gathered`) are appended to. -/
def applyUpdate (st : MealPlanState) (u : StateUpdate) : MealPlanState :=
  { st with
    recipe_name := match u.recipe_name with | some v => some v | none => st.recipe_name
    ingredients := match u.ingredients with | some v => v | none => st.ingredients
    instructions := match u.instructions with | some v => v | none => st.instructions
    store_recommendations :=
      match u.store_recommendations with | some v => v | none => st.store_recommendations
    web_research_results := st.web_research_results ++ u.web_research_results
    sources_gathered := st.sources_gathered ++ u.sources_gathered
    final_report := match u.final_report with | some v => some v | none => st.final_report }

/-- Fresh state built from the run's input record (all other fields at their
dataclass defaults). -/
def initState (input : MealPlanStateInput) : MealPlanState :=
  { location := input.location
    cuisine_preference := input.cuisine_preference
    dietary_restrictions := input.dietary_restrictions
    flavor_preference := input.flavor_preference }

/-! ### External collaborators -/

/-- Outcome of one language-model call: either the call raises, or it returns
a body on which `json.loads` either fails with a decode message or yields a
JSON value.  Search calls return a raised exception or a result value. -/
structure Env where
  recipeQueryLLM : Except PyErr (Except String Json)
  tavilyRecipeSearch : Except PyErr Json
  perplexityRecipeSearch : Except PyErr Json
  recipeParseLLM : Except PyErr (Except String Json)
  storeQueryLLM : Except PyErr (Except String Json)
  tavilyStoreSearch : Except PyErr Json
  perplexityStoreSearch : Except PyErr Json
  storeParseLLM : Except PyErr (Except String Json)

/-- Python `json.loads` on a model body whose parse outcome the environment
fixed: a decode failure raises `json.JSONDecodeError`. -/
def loads (r : Except String Json) : Except PyErr Json :=
  match r with
  | .ok j => .ok j
  | .error m => .error (.jsonDecodeError m)

/-- Modelled from the spec: `format_sources` lives in the repository's
utils.py, which is not under src/; the spec says only that stage 1 appends
"one formatted-source string" derived from the search-result batch, so we
model it as a deterministic rendering of the batch. -/
def format_sources (search_results : Json) : String :=
  pyStrOf search_results

/-! ### Report formatting (src/meal_utils.py and src/meal_prompts.py) -/

/-- `FINAL_REPORT_TEMPLATE.format(...)` from src/meal_prompts.py, with the
four placeholders substituted. -/
def FINAL_REPORT_TEMPLATE_fmt (recipe_name store_recommendations ingredients
    instructions : String) : String :=
  "# Meal Planning Report\n\n## Recipe: " ++ recipe_name ++
  "\n\n### Recommended Stores:\n" ++ store_recommendations ++
  "\n\n### Shopping List:\n" ++ ingredients ++
  "\n\n### Cooking Instructions:\n" ++ instructions ++
  "\n\n*All store recommendations and prices are approximate. Please call ahead to confirm availability.*\n"

/-- `format_ingredients_list` from src/meal_utils.py: one stripped line
`"- <quantity> <unit> <name>"` per ingredient, joined by newlines. -/
def format_ingredients_list (ingredients : Json) : Except PyErr String := do
  let items ← pyIter ingredients
  let formatted ← items.mapM fun item => do
    let quantity ← pyGet item "quantity" (Json.str "")
    let unit ← pyGet item "unit" (Json.str "")
    let name ← pyGet item "name" (Json.str "")
    pure (pyStrip ("- " ++ pyStrOf quantity ++ " " ++ pyStrOf unit ++ " " ++ pyStrOf name))
  pure (String.intercalate "\n" formatted)

/-- `format_store_recommendations` from src/meal_utils.py: one block per
store, with an optional specialty-items line when the list is truthy. -/
def format_store_recommendations (stores : List Json) : Except PyErr String := do
  let formatted ← stores.mapM fun store => do
    let name ← pyGet store "name" (Json.str "")
    let address ← pyGet store "address" (Json.str "")
    let specialty_items ← pyGet store "specialty_items" (Json.arr [])
    let store_info := "* " ++ pyStrOf name ++ " - " ++ pyStrOf address
    if pyTruthy specialty_items then do
      let joined ← pyJoinComma specialty_items
      pure (store_info ++ "\n  Recommended for: " ++ joined)
    else
      pure store_info
  pure (String.intercalate "\n" formatted)

/-- Numbered instruction list `"\n".join(f"<i+1>. <step>")` from
`generate_final_report`. -/
def format_instructions (instructions : Json) : Except PyErr String := do
  let items ← pyIter instructions
  pure (String.intercalate "\n"
    (items.enum.map fun p => toString (p.1 + 1) ++ ". " ++ pyStrOf p.2))

/-- `generate_final_report` from src/meal_utils.py: renders the template from
the final state (argument evaluation order as in the Python call). -/
def generate_final_report (st : MealPlanState) : Except PyErr String := do
  let store_block ← format_store_recommendations st.store_recommendations
  let ingredients_block ← format_ingredients_list st.ingredients
  let instructions_block ← format_instructions st.instructions
  pure (FINAL_REPORT_TEMPLATE_fmt (pyStrOf ((st.recipe_name).getD .null))
    store_block ingredients_block instructions_block)

/-! ### Pipeline stages (src/graph.py) -/

/-- Batch formatter shared by `parse_recipe` and `find_stores` (src/graph.py
lines 134-144 and 207-215): flatten a `results`-shaped batch into a
`Title/Content/URL` text block, or stringify any other shape verbatim.
The rendered block only feeds the next model prompt, but building it can
raise, which is observable. -/
def formatResultsBlock (batch : Json) : Except PyErr String :=
  match batch with
  | .obj kvs =>
    match alookupJ kvs "results" with
    | some v => do
      let items ← pyIter v
      let lines ← items.mapM fun r => do
        let t ← pyGet r "title" (Json.str "")
        let c ← pyGet r "content" (Json.str "")
        let u ← pyGet r "url" (Json.str "")
        pure ("Title: " ++ pyStrOf t ++ "\nContent: " ++ pyStrOf c ++ "\nURL: " ++ pyStrOf u)
      pure (String.intercalate "\n\n" lines)
    | none => .ok (pyStrOf batch)
  | _ => .ok (pyStrOf batch)

/-- Ingredient-name block `"\n".join(f"- <i['name']>")` rendered into the
store-search prompt (src/graph.py line 185); subscription can raise. -/
def ingredientNamesBlock (ingredients : Json) : Except PyErr String := do
  let items ← pyIter ingredients
  let lines ← items.mapM fun i => do
    let n ← jsonGetItem i "name"
    pure ("- " ++ pyStrOf n)
  pure (String.intercalate "\n" lines)

/-- Exception filter of the `except (json.JSONDecodeError, ValueError)`
clauses in `parse_recipe` and `find_stores`. -/
def catchesJSONDecodeOrValueError : PyErr → Bool
  | .jsonDecodeError _ => true
  | .valueError _ => true
  | _ => false

/-- Body of the `try` block of `search_recipes` (src/graph.py lines 23-59):
prompt rendering (pure string building over the preference fields, which
cannot raise), the query-generation model call, `json.loads`, the query-shape
check, the web search on the configured backend, and the empty-result check. -/
def search_recipesTry (_st : MealPlanState) (cfg : Configuration) (env : Env) :
    Except PyErr StateUpdate := do
  let content ← env.recipeQueryLLM
  let query ← loads content
  if !(isObjWithKey query "query") then
    Except.error (PyErr.valueError "Invalid query format from LLM")
  else do
    let search_results ←
      if cfg.search_api = PyVal.searchApi SearchAPI.TAVILY then env.tavilyRecipeSearch
      else env.perplexityRecipeSearch
    if !(pyTruthy search_results) then
      Except.error (PyErr.valueError "No search results found")
    else
      pure { web_research_results := [search_results]
             sources_gathered := [format_sources search_results] }

/-- Synthetic single-entry fallback batch of `search_recipes` (src/graph.py
lines 61-73). -/
def searchRecipesFallback (e : PyErr) : StateUpdate :=
  { web_research_results :=
      [Json.obj [("results", Json.arr
        [Json.obj [("title", Json.str "Error in search"),
                   ("content", Json.str ("Failed to search for recipes: " ++ pyErrStr e)),
                   ("url", Json.str "")]])]]
    sources_gathered := ["Search failed"] }

/-- Node `search_recipes` (src/graph.py lines 20-73).  The `except` clause
names `(json.JSONDecodeError, ValueError, Exception)` and therefore catches
every exception, so the node is a total function. -/
def search_recipes (st : MealPlanState) (cfg : Configuration) (env : Env) : StateUpdate :=
  match search_recipesTry st cfg env with
  | .ok u => u
  | .error e => searchRecipesFallback e

/-- Fallback recipe structure of `parse_recipe` (src/graph.py lines 168-177). -/
def recipeFallbackUpdate : StateUpdate :=
  { recipe_name := some (.str "Basic Recipe (Error in parsing)")
    ingredients := some (.arr [.obj [("quantity", .str "1"), ("unit", .str "serving"),
                                     ("name", .str "ingredients not found")]])
    instructions := some (.arr [.str "Recipe instructions could not be parsed"]) }

/-- Body of the `try` block of `parse_recipe` (src/graph.py lines 154-166):
`json.loads` on the extraction response, the three-key presence check, and the
three subscriptions building the update. -/
def parse_recipeTry (content : Except String Json) : Except PyErr StateUpdate := do
  let recipe_data ← loads content
  let b ← allKeysIn recipe_data ["recipe_name", "ingredients", "instructions"]
  if !b then
    Except.error (PyErr.valueError "Missing required keys in recipe data")
  else do
    let rn ← jsonGetItem recipe_data "recipe_name"
    let ing ← jsonGetItem recipe_data "ingredients"
    let ins ← jsonGetItem recipe_data "instructions"
    pure { recipe_name := some rn, ingredients := some ing, instructions := some ins }

/-- Node `parse_recipe` (src/graph.py lines 75-177).  Outside any `try`:
indexing `web_research_results[-1]`, flattening the batch into the prompt, and
the extraction model call itself; the `try` around parsing catches only
`json.JSONDecodeError` and `ValueError`. -/
def parse_recipe (st : MealPlanState) (_cfg : Configuration) (env : Env) :
    Except PyErr StateUpdate := do
  let most_recent ←
    match st.web_research_results.getLast? with
    | some b => Except.ok b
    | none => Except.error (PyErr.indexError "list index out of range")
  let _search_content ← formatResultsBlock most_recent
  let content ← env.recipeParseLLM
  match parse_recipeTry content with
  | .ok u => .ok u
  | .error e =>
    if catchesJSONDecodeOrValueError e then .ok recipeFallbackUpdate else .error e

/-- Fallback store entry of `find_stores` (src/graph.py lines 281-288),
pointing at the input location (`str(None)` renders as "None" when the
location is unset, as in the f-string). -/
def fallbackStore (location : Option String) : Json :=
  .obj [("name", .str "Local Grocery Store"),
        ("address", .str ("Search for grocery stores near " ++ location.getD "None")),
        ("specialty_items", .arr [.str "Unable to parse store data"])]

/-- Membership check `all(key in store for key in required_keys)` for one
store (src/graph.py lines 272-275). -/
def checkStoreKeys (store : Json) : Except PyErr Bool :=
  allKeysIn store ["name", "address", "specialty_items"]

/-- Per-store validation loop of `find_stores`: raises `ValueError` at the
first store missing a required key (aborting the whole list), and propagates a
`TypeError` raised by membership on a non-container store. -/
def validateStores : List Json → Except PyErr Unit
  | [] => .ok ()
  | store :: rest => do
    let b ← checkStoreKeys store
    if b then validateStores rest
    else .error (.valueError ("Store missing required keys: " ++ pyStrOf store))

/-- Python slice `stores[:n]` where `n` is whatever the configuration field
holds: ints (and bools, which are ints) slice, `None` keeps everything, and
any other type raises `TypeError`. -/
def pySliceTo (l : List Json) (v : PyVal) : Except PyErr (List Json) :=
  match v with
  | .int n => .ok (if 0 ≤ n then l.take n.toNat else l.take (l.length - (-n).toNat))
  | .bool b => .ok (l.take (if b then 1 else 0))
  | .none => .ok l
  | _ => .error (.typeError "slice indices must be integers or None or have an __index__ method")

/-- Body of the `try` block of `find_stores` (src/graph.py lines 251-277): the
extraction model call, `json.loads`, the `stores`-key shape checks, the
per-store validation, and the slice to the configured maximum. -/
def find_storesTry (cfg : Configuration) (env : Env) : Except PyErr StateUpdate := do
  let content ← env.storeParseLLM
  let store_data ← loads content
  if !(isObjWithKey store_data "stores") then
    Except.error (PyErr.valueError "Invalid store data format")
  else do
    let stores ← jsonGetItem store_data "stores"
    match stores with
    | .arr l => do
      let _ ← validateStores l
      let kept ← pySliceTo l cfg.max_store_recommendations
      pure { store_recommendations := some kept }
    | _ => Except.error (PyErr.valueError "Stores must be a list")

/-- Node `find_stores` (src/graph.py lines 179-288).  Outside any `try`:
rendering the store-search prompt over the ingredient names, the
query-generation model call, its `json.loads`, the `query` subscription, the
web search, and flattening the search batch; the `try` around the extraction
half catches only `json.JSONDecodeError` and `ValueError` and degrades to the
single fallback store entry. -/
def find_stores (st : MealPlanState) (cfg : Configuration) (env : Env) :
    Except PyErr StateUpdate := do
  let _ingredient_lines ← ingredientNamesBlock st.ingredients
  let content ← env.storeQueryLLM
  let query ← loads content
  let _q ← jsonGetItem query "query"
  let search_results ←
    if cfg.search_api = PyVal.searchApi SearchAPI.TAVILY then env.tavilyStoreSearch
    else env.perplexityStoreSearch
  let _search_content ← formatResultsBlock search_results
  match find_storesTry cfg env with
  | .ok u => .ok u
  | .error e =>
    if catchesJSONDecodeOrValueError e then
      .ok { store_recommendations := some [fallbackStore st.location] }
    else
      .error e

/-- Node `create_report` (src/graph.py lines 290-292). -/
def create_report (st : MealPlanState) : Except PyErr StateUpdate := do
  let r ← generate_final_report st
  pure { final_report := some r }

/-! ### The linear pipeline (src/graph.py lines 294-310) -/

/-- State after stage 1 (`search_recipes` never raises). -/
def runThroughStage1 (cfg : Configuration) (env : Env) (input : MealPlanStateInput) :
    MealPlanState :=
  let st0 := initState input
  applyUpdate st0 (search_recipes st0 cfg env)

/-- State after stage 2 (`parse_recipe`). -/
def runThroughStage2 (cfg : Configuration) (env : Env) (input : MealPlanStateInput) :
    Except PyErr MealPlanState := do
  let st1 := runThroughStage1 cfg env input
  let u ← parse_recipe st1 cfg env
  pure (applyUpdate st1 u)

/-- State after stage 3 (`find_stores`). -/
def runThroughStage3 (cfg : Configuration) (env : Env) (input : MealPlanStateInput) :
    Except PyErr MealPlanState := do
  let st2 ← runThroughStage2 cfg env input
  let u ← find_stores st2 cfg env
  pure (applyUpdate st2 u)

/-- Whole four-stage run: START → search_recipes → parse_recipe → find_stores
→ create_report → END, each stage's update merged into the running state.  The
`Configuration` is resolved once per run (each node recomputes it from the
same runnable config and environment, deterministically, so the values
coincide). -/
def runPipeline (cfg : Configuration) (env : Env) (input : MealPlanStateInput) :
    Except PyErr MealPlanState := do
  let st3 ← runThroughStage3 cfg env input
  let u ← create_report st3
  pure (applyUpdate st3 u)

/-- Substring containment, the sense in which the final report "contains" its
section headers. -/
def strContains (s pat : String) : Prop := ∃ x y : String, s = x ++ pat ++ y

/-- Resolution order stated field-wise, following the amended precedence the
code actually implements (environment over explicit override over default,
falsy resolved values discarded): used to characterize
`Configuration.from_runnable_config`. -/
def resolutionSpec (env : List (String × String)) (conf : List (String × PyVal))
    (fname : String) (dflt : PyVal) : PyVal :=
  match alookupS env (pyUpper fname) with
  | some s => if s != "" then .str s else dflt
  | Option.none =>
    match alookupV conf fname with
    | some v => if v.isTruthy then v else dflt
    | Option.none => dflt

/-! ### Concrete fixtures for witnesses and counterexamples -/

/-- Configuration with all built-in defaults (Tavily backend, max 3 stores). -/
def cfgDefault : Configuration := {}

/-- An environment in which every external call succeeds with well-shaped
JSON: the happy path of the whole pipeline. -/
def envHappy : Env :=
  { recipeQueryLLM := .ok (.ok (.obj [("query", .str "vegetarian pasta recipe"),
      ("rationale", .str "matches preferences")]))
    tavilyRecipeSearch := .ok (.obj [("results", .arr [.obj
      [("title", .str "Pasta"), ("content", .str "A simple recipe"),
       ("url", .str "http://example.com")]])])
    perplexityRecipeSearch := .ok (.obj [("results", .arr [])])
    recipeParseLLM := .ok (.ok (.obj [("recipe_name", .str "Pasta"),
      ("ingredients", .arr [.obj [("quantity", .str "2"), ("unit", .str "cups"),
        ("name", .str "flour")]]),
      ("instructions", .arr [.str "Mix", .str "Bake"])]))
    storeQueryLLM := .ok (.ok (.obj [("query", .str "grocery stores san diego"),
      ("specialty_items", .arr [])]))
    tavilyStoreSearch := .ok (.obj [("results", .arr [.obj
      [("title", .str "Stores"), ("content", .str "a store list"), ("url", .str "")]])])
    perplexityStoreSearch := .ok (.obj [("results", .arr [])])
    storeParseLLM := .ok (.ok (.obj [("stores", .arr [.obj
      [("name", .str "Whole Foods"), ("address", .str "123 Main St"),
       ("specialty_items", .arr [.str "organic produce"])]])])) }

/-- Run input used by the witnesses. -/
def inputSanDiego : MealPlanStateInput := { location := some "San Diego" }

/-- State reached after stage 1 on the happy-path fixtures. -/
def st1W : MealPlanState := runThroughStage1 cfgDefault envHappy inputSanDiego

/-- A well-formed store record used by the store-cap witness. -/
def storeW (nm : String) : Json :=
  .obj [("name", .str nm), ("address", .str "1 Main St"),
        ("specialty_items", .arr [.str "x"])]

/-- Five validated stores, more than the configured maximum of three. -/
def storesFiveW : List Json := [storeW "A", storeW "B", storeW "C", storeW "D", storeW "E"]

/-- Happy-path environment whose store extraction returns five stores. -/
def envFiveStores : Env :=
  { envHappy with storeParseLLM := .ok (.ok (.obj [("stores", .arr storesFiveW)])) }

/-- Environment whose stage-1 query response fails to parse as JSON. -/
def envParseFailW : Env :=
  { envHappy with recipeQueryLLM := .ok (.error "Expecting value: line 1 column 1 (char 0)") }

/-- Environment whose stage-1 query response is JSON without a `query` key. -/
def envNoQueryW : Env :=
  { envHappy with recipeQueryLLM := .ok (.ok (.obj [("rationale", .str "no query")])) }

/-- Environment whose stage-1 web search comes back empty (falsy). -/
def envEmptySearchW : Env :=
  { envHappy with tavilyRecipeSearch := .ok (.obj []) }

/-- Environment whose stage-2 extraction response body is not JSON. -/
def envRecipeNotJsonW : Env :=
  { envHappy with recipeParseLLM := .ok (.error "Expecting value: line 1 column 1 (char 0)") }

/-- Environment whose stage-3 extraction model call itself raises. -/
def envStoreRaiseW : Env :=
  { envHappy with storeParseLLM := .error (.apiError "connection reset") }

/-- Environment whose stage-3 query-generation model call raises. -/
def envStoreQueryRaiseW : Env :=
  { envHappy with storeQueryLLM := .error (.apiError "timeout") }

/-- Environment whose stage-3 query-generation response is not JSON. -/
def envStoreQueryNotJsonW : Env :=
  { envHappy with storeQueryLLM := .ok (.error "Expecting value") }

/-- Environment whose stage-3 web search raises. -/
def envStoreSearchRaiseW : Env :=
  { envHappy with tavilyStoreSearch := .error (.apiError "search down") }

/-- Environment whose stage-3 extraction response is not JSON. -/
def envStoreParseNotJsonW : Env :=
  { envHappy with storeParseLLM := .ok (.error "Expecting value") }

/-- Environment whose stage-3 extracted store list has an entry missing
`specialty_items`. -/
def envStoreMissingKeyW : Env :=
  { envHappy with storeParseLLM := .ok (.ok (.obj [("stores", .arr
      [storeW "A",
       .obj [("name", .str "B"), ("address", .str "2 Main St")]])])) }

/-- State reached after stage 2 on the happy-path fixtures. -/
def st2W : MealPlanState :=
  match runThroughStage2 cfgDefault envHappy inputSanDiego with
  | .ok s => s
  | .error _ => initState inputSanDiego

/-! ### Helper lemmas -/

/-- Concatenation acts on the character data. -/
theorem strAppend_data (s t : String) : (s ++ t).data = s.data ++ t.data := rfl

/-- Strings with equal character data are equal. -/
theorem strEq_of_data {s t : String} (h : s.data = t.data) : s = t := by
  cases s; cases t; exact congrArg String.mk h

/-- String concatenation is associative. -/
theorem strAppend_assoc (a b c : String) : a ++ b ++ c = a ++ (b ++ c) :=
  strEq_of_data (by simp [strAppend_data])

/-- Every rendering of the final-report template contains the `Recipe`
header. -/
theorem fmt_contains_recipe (a b c d : String) :
    strContains (FINAL_REPORT_TEMPLATE_fmt a b c d) "Recipe" :=
  ⟨"# Meal Planning Report\n\n## ",
   ": " ++ a ++ "\n\n### Recommended Stores:\n" ++ b ++ "\n\n### Shopping List:\n" ++ c ++
     "\n\n### Cooking Instructions:\n" ++ d ++
     "\n\n*All store recommendations and prices are approximate. Please call ahead to confirm availability.*\n",
   by simp only [FINAL_REPORT_TEMPLATE_fmt, strAppend_assoc]; rfl⟩

/-- Every rendering of the final-report template contains the
`Recommended Stores` header. -/
theorem fmt_contains_stores (a b c d : String) :
    strContains (FINAL_REPORT_TEMPLATE_fmt a b c d) "Recommended Stores" :=
  ⟨"# Meal Planning Report\n\n## Recipe: " ++ a ++ "\n\n### ",
   ":\n" ++ b ++ "\n\n### Shopping List:\n" ++ c ++ "\n\n### Cooking Instructions:\n" ++ d ++
     "\n\n*All store recommendations and prices are approximate. Please call ahead to confirm availability.*\n",
   by simp only [FINAL_REPORT_TEMPLATE_fmt, strAppend_assoc]; rfl⟩

/-- Every rendering of the final-report template contains the `Shopping List`
header. -/
theorem fmt_contains_shopping (a b c d : String) :
    strContains (FINAL_REPORT_TEMPLATE_fmt a b c d) "Shopping List" :=
  ⟨"# Meal Planning Report\n\n## Recipe: " ++ a ++ "\n\n### Recommended Stores:\n" ++ b ++
     "\n\n### ",
   ":\n" ++ c ++ "\n\n### Cooking Instructions:\n" ++ d ++
     "\n\n*All store recommendations and prices are approximate. Please call ahead to confirm availability.*\n",
   by simp only [FINAL_REPORT_TEMPLATE_fmt, strAppend_assoc]; rfl⟩

/-- Every rendering of the final-report template contains the
`Cooking Instructions` header. -/
theorem fmt_contains_cooking (a b c d : String) :
    strContains (FINAL_REPORT_TEMPLATE_fmt a b c d) "Cooking Instructions" :=
  ⟨"# Meal Planning Report\n\n## Recipe: " ++ a ++ "\n\n### Recommended Stores:\n" ++ b ++
     "\n\n### Shopping List:\n" ++ c ++ "\n\n### ",
   ":\n" ++ d ++
     "\n\n*All store recommendations and prices are approximate. Please call ahead to confirm availability.*\n",
   by simp only [FINAL_REPORT_TEMPLATE_fmt, strAppend_assoc]; rfl⟩

/-- No rendering of the final-report template is empty. -/
theorem fmt_ne_empty (a b c d : String) : FINAL_REPORT_TEMPLATE_fmt a b c d ≠ "" := by
  intro h
  have hd := congrArg String.data h
  simp only [FINAL_REPORT_TEMPLATE_fmt, strAppend_data] at hd
  simp at hd

/-- A successful `generate_final_report` always yields a rendering of the
report template. -/
theorem generate_final_report_ok_shape {st : MealPlanState} {r : String}
    (h : generate_final_report st = .ok r) :
    ∃ a b c d, r = FINAL_REPORT_TEMPLATE_fmt a b c d := by
  unfold generate_final_report at h
  cases h1 : format_store_recommendations st.store_recommendations with
  | error e => rw [h1] at h; simp [Bind.bind, Except.bind] at h
  | ok sb =>
    rw [h1] at h
    cases h2 : format_ingredients_list st.ingredients with
    | error e => rw [h2] at h; simp [Bind.bind, Except.bind] at h
    | ok ib =>
      rw [h2] at h
      cases h3 : format_instructions st.instructions with
      | error e => rw [h3] at h; simp [Bind.bind, Except.bind] at h
      | ok nb =>
        rw [h3] at h
        simp [Bind.bind, Except.bind, pure, Except.pure] at h
        exact ⟨_, _, _, _, h.symm⟩

/-- A completed run's final report is a rendering of the report template. -/
theorem runPipeline_ok_report {cfg : Configuration} {env : Env}
    {input : MealPlanStateInput} {st : MealPlanState}
    (h : runPipeline cfg env input = .ok st) :
    ∃ a b c d, st.final_report = some (FINAL_REPORT_TEMPLATE_fmt a b c d) := by
  unfold runPipeline at h
  cases h3 : runThroughStage3 cfg env input with
  | error e => rw [h3] at h; simp [Bind.bind, Except.bind] at h
  | ok st3 =>
    rw [h3] at h
    simp only [Bind.bind, Except.bind] at h
    unfold create_report at h
    cases h5 : generate_final_report st3 with
    | error e => rw [h5] at h; simp [Bind.bind, Except.bind] at h
    | ok r =>
      rw [h5] at h
      simp [Bind.bind, Except.bind, pure, Except.pure] at h
      obtain ⟨a, b, c, d, hr⟩ := generate_final_report_ok_shape h5
      exact ⟨a, b, c, d, by rw [← h]; simp [applyUpdate, hr]⟩

/-- C1: for every valid PreferenceRecord (non-empty location), running the
four-stage pipeline end-to-end produces a non-empty `final_report` string that
contains all four section headers (Recipe, Recommended Stores, Shopping List,
Cooking Instructions), regardless of whether any stage degraded to its
fallback value. -/
theorem pipeline_final_report_contains_sections
    (cfg : Configuration) (env : Env) (input : MealPlanStateInput)
    (loc : String) (st : MealPlanState)
    (_hloc : input.location = some loc) (_hne : loc ≠ "")
    (hrun : runPipeline cfg env input = .ok st) :
    ∃ r, st.final_report = some r ∧ r ≠ "" ∧
      strContains r "Recipe" ∧ strContains r "Recommended Stores" ∧
      strContains r "Shopping List" ∧ strContains r "Cooking Instructions" := by
  obtain ⟨a, b, c, d, hr⟩ := runPipeline_ok_report hrun
  exact ⟨_, hr, fmt_ne_empty a b c d, fmt_contains_recipe a b c d,
    fmt_contains_stores a b c d, fmt_contains_shopping a b c d,
    fmt_contains_cooking a b c d⟩

/-- Witness for C1: on the happy-path environment the pipeline completes and
the theorem applies, all hypotheses discharged at concrete inputs. -/
theorem pipeline_final_report_contains_sections_witness :
    ∃ st, runPipeline cfgDefault envHappy inputSanDiego = .ok st ∧
      ∃ r, st.final_report = some r ∧ r ≠ "" ∧
        strContains r "Recipe" ∧ strContains r "Recommended Stores" ∧
        strContains r "Shopping List" ∧ strContains r "Cooking Instructions" := by
  obtain ⟨st, hst⟩ : ∃ st, runPipeline cfgDefault envHappy inputSanDiego = .ok st :=
    ⟨_, rfl⟩
  exact ⟨st, hst, pipeline_final_report_contains_sections cfgDefault envHappy
    inputSanDiego "San Diego" st rfl (by decide) hst⟩

/-- A successful pass of the stage-1 try block appends exactly one batch and
the matching formatted source. -/
theorem search_recipesTry_ok_shape {st : MealPlanState} {cfg : Configuration}
    {env : Env} {u : StateUpdate} (h : search_recipesTry st cfg env = .ok u) :
    ∃ r, u.web_research_results = [r] ∧ u.sources_gathered = [format_sources r] := by
  unfold search_recipesTry at h
  cases hq : env.recipeQueryLLM with
  | error e => rw [hq] at h; simp [Bind.bind, Except.bind] at h
  | ok content =>
    rw [hq] at h
    simp only [Bind.bind, Except.bind] at h
    cases hl : loads content with
    | error e => rw [hl] at h; simp at h
    | ok query =>
      rw [hl] at h
      simp only at h
      cases hk : isObjWithKey query "query" with
      | false => rw [hk] at h; simp at h
      | true =>
        rw [hk] at h
        simp only [Bool.not_true, Bool.false_eq_true, if_false] at h
        split at h
        · cases hs : env.tavilyRecipeSearch with
          | error e => rw [hs] at h; simp at h
          | ok sr =>
            rw [hs] at h
            simp only at h
            cases ht : pyTruthy sr with
            | false => simp [ht] at h
            | true =>
              simp [ht, pure, Except.pure] at h
              exact ⟨sr, by rw [← h], by rw [← h]⟩
        · cases hs : env.perplexityRecipeSearch with
          | error e => rw [hs] at h; simp at h
          | ok sr =>
            rw [hs] at h
            simp only at h
            cases ht : pyTruthy sr with
            | false => simp [ht] at h
            | true =>
              simp [ht, pure, Except.pure] at h
              exact ⟨sr, by rw [← h], by rw [← h]⟩

/-- Whichever branch stage 1 takes, its returned update carries exactly one
batch and one source entry. -/
theorem search_recipes_update_shape (st : MealPlanState) (cfg : Configuration)
    (env : Env) :
    ∃ r s, (search_recipes st cfg env).web_research_results = [r] ∧
      (search_recipes st cfg env).sources_gathered = [s] := by
  unfold search_recipes
  cases h : search_recipesTry st cfg env with
  | ok u =>
    obtain ⟨r, hw, hs⟩ := search_recipesTry_ok_shape h
    exact ⟨r, format_sources r, hw, hs⟩
  | error e => exact ⟨_, _, rfl, rfl⟩

/-- A successful pass of the stage-2 try block returns no batch and no source
entry. -/
theorem parse_recipeTry_ok_shape {content : Except String Json} {u : StateUpdate}
    (h : parse_recipeTry content = .ok u) :
    u.web_research_results = [] ∧ u.sources_gathered = [] := by
  unfold parse_recipeTry at h
  cases hl : loads content with
  | error e => rw [hl] at h; simp [Bind.bind, Except.bind] at h
  | ok recipe_data =>
    rw [hl] at h
    simp only [Bind.bind, Except.bind] at h
    cases hb : allKeysIn recipe_data ["recipe_name", "ingredients", "instructions"] with
    | error e => rw [hb] at h; simp at h
    | ok b =>
      rw [hb] at h
      cases b with
      | false => simp at h
      | true =>
        simp only [Bool.not_true, Bool.false_eq_true, if_false] at h
        cases h1 : jsonGetItem recipe_data "recipe_name" with
        | error e => rw [h1] at h; simp at h
        | ok rn =>
          rw [h1] at h
          cases h2 : jsonGetItem recipe_data "ingredients" with
          | error e => rw [h2] at h; simp at h
          | ok ing =>
            rw [h2] at h
            cases h3 : jsonGetItem recipe_data "instructions" with
            | error e => rw [h3] at h; simp at h
            | ok ins =>
              rw [h3] at h
              simp [pure, Except.pure] at h
              rw [← h]
              exact ⟨rfl, rfl⟩

/-- Stage 2 never touches the two accumulating lists. -/
theorem parse_recipe_ok_no_append {st : MealPlanState} {cfg : Configuration}
    {env : Env} {u : StateUpdate} (h : parse_recipe st cfg env = .ok u) :
    u.web_research_results = [] ∧ u.sources_gathered = [] := by
  unfold parse_recipe at h
  cases hm : st.web_research_results.getLast? with
  | none => rw [hm] at h; simp [Bind.bind, Except.bind] at h
  | some b =>
    rw [hm] at h
    simp only [Bind.bind, Except.bind] at h
    cases hf : formatResultsBlock b with
    | error e => rw [hf] at h; simp at h
    | ok sc =>
      rw [hf] at h
      simp only at h
      cases hc : env.recipeParseLLM with
      | error e => rw [hc] at h; simp at h
      | ok content =>
        rw [hc] at h
        simp only at h
        cases ht : parse_recipeTry content with
        | ok u' =>
          simp [ht] at h
          rw [← h]
          exact parse_recipeTry_ok_shape ht
        | error e =>
          simp only [ht] at h
          cases hcaught : catchesJSONDecodeOrValueError e with
          | false => simp [hcaught] at h
          | true =>
            simp [hcaught] at h
            rw [← h]
            exact ⟨rfl, rfl⟩

/-- A successful pass of the stage-3 try block returns no batch and no source
entry. -/
theorem find_storesTry_ok_shape {cfg : Configuration} {env : Env} {u : StateUpdate}
    (h : find_storesTry cfg env = .ok u) :
    u.web_research_results = [] ∧ u.sources_gathered = [] := by
  unfold find_storesTry at h
  cases hc : env.storeParseLLM with
  | error e => rw [hc] at h; simp [Bind.bind, Except.bind] at h
  | ok content =>
    rw [hc] at h
    simp only [Bind.bind, Except.bind] at h
    cases hl : loads content with
    | error e => rw [hl] at h; simp at h
    | ok store_data =>
      rw [hl] at h
      simp only at h
      cases hk : isObjWithKey store_data "stores" with
      | false => rw [hk] at h; simp at h
      | true =>
        rw [hk] at h
        simp only [Bool.not_true, Bool.false_eq_true, if_false] at h
        cases hg : jsonGetItem store_data "stores" with
        | error e => rw [hg] at h; simp at h
        | ok stores =>
          rw [hg] at h
          cases stores with
          | arr l =>
            simp only at h
            cases hv : validateStores l with
            | error e => rw [hv] at h; simp at h
            | ok uu =>
              rw [hv] at h
              cases hsl : pySliceTo l cfg.max_store_recommendations with
              | error e => rw [hsl] at h; simp at h
              | ok kept =>
                rw [hsl] at h
                simp [pure, Except.pure] at h
                rw [← h]
                exact ⟨rfl, rfl⟩
          | null => simp at h
          | bool b => simp at h
          | num n => simp at h
          | str s => simp at h
          | obj kvs => simp at h

/-- Stage 3 never touches the two accumulating lists. -/
theorem find_stores_ok_no_append {st : MealPlanState} {cfg : Configuration}
    {env : Env} {u : StateUpdate} (h : find_stores st cfg env = .ok u) :
    u.web_research_results = [] ∧ u.sources_gathered = [] := by
  unfold find_stores at h
  cases h0 : ingredientNamesBlock st.ingredients with
  | error e => rw [h0] at h; simp [Bind.bind, Except.bind] at h
  | ok lines =>
    rw [h0] at h
    simp only [Bind.bind, Except.bind] at h
    cases hc : env.storeQueryLLM with
    | error e => rw [hc] at h; simp at h
    | ok content =>
      rw [hc] at h
      simp only at h
      cases hl : loads content with
      | error e => rw [hl] at h; simp at h
      | ok query =>
        rw [hl] at h
        simp only at h
        cases hq : jsonGetItem query "query" with
        | error e => rw [hq] at h; simp at h
        | ok q =>
          rw [hq] at h
          simp only at h
          split at h
          · cases hs : env.tavilyStoreSearch with
            | error e => rw [hs] at h; simp at h
            | ok sr =>
              rw [hs] at h
              simp only at h
              cases hf : formatResultsBlock sr with
              | error e => rw [hf] at h; simp at h
              | ok sc =>
                rw [hf] at h
                simp only at h
                cases ht : find_storesTry cfg env with
                | ok u' =>
                  simp [ht] at h
                  rw [← h]
                  exact find_storesTry_ok_shape ht
                | error e =>
                  simp only [ht] at h
                  cases hcaught : catchesJSONDecodeOrValueError e with
                  | false => simp [hcaught] at h
                  | true =>
                    simp [hcaught] at h
                    rw [← h]
                    exact ⟨rfl, rfl⟩
          · cases hs : env.perplexityStoreSearch with
            | error e => rw [hs] at h; simp at h
            | ok sr =>
              rw [hs] at h
              simp only at h
              cases hf : formatResultsBlock sr with
              | error e => rw [hf] at h; simp at h
              | ok sc =>
                rw [hf] at h
                simp only at h
                cases ht : find_storesTry cfg env with
                | ok u' =>
                  simp [ht] at h
                  rw [← h]
                  exact find_storesTry_ok_shape ht
                | error e =>
                  simp only [ht] at h
                  cases hcaught : catchesJSONDecodeOrValueError e with
                  | false => simp [hcaught] at h
                  | true =>
                    simp [hcaught] at h
                    rw [← h]
                    exact ⟨rfl, rfl⟩

/-- Stage 4 never touches the two accumulating lists. -/
theorem create_report_ok_no_append {st : MealPlanState} {u : StateUpdate}
    (h : create_report st = .ok u) :
    u.web_research_results = [] ∧ u.sources_gathered = [] := by
  unfold create_report at h
  cases hg : generate_final_report st with
  | error e => rw [hg] at h; simp [Bind.bind, Except.bind] at h
  | ok r =>
    rw [hg] at h
    simp [Bind.bind, Except.bind, pure, Except.pure] at h
    rw [← h]
    exact ⟨rfl, rfl⟩

/-- C2: `web_research_results` and `sources_gathered` are append-only across
a run: stage 1 appends exactly one batch to each (length after stage 1 is
prior length + 1, in both the success and the fallback branch, and the prior
list survives unchanged as a prefix), and none of the later stages touches
either list. -/
theorem research_lists_append_only (st : MealPlanState) (cfg : Configuration)
    (env : Env) :
    (∃ b, (applyUpdate st (search_recipes st cfg env)).web_research_results =
        st.web_research_results ++ [b]) ∧
    (∃ s, (applyUpdate st (search_recipes st cfg env)).sources_gathered =
        st.sources_gathered ++ [s]) ∧
    (applyUpdate st (search_recipes st cfg env)).web_research_results.length =
      st.web_research_results.length + 1 ∧
    (applyUpdate st (search_recipes st cfg env)).sources_gathered.length =
      st.sources_gathered.length + 1 ∧
    (∀ u, parse_recipe st cfg env = .ok u →
      (applyUpdate st u).web_research_results = st.web_research_results ∧
      (applyUpdate st u).sources_gathered = st.sources_gathered) ∧
    (∀ u, find_stores st cfg env = .ok u →
      (applyUpdate st u).web_research_results = st.web_research_results ∧
      (applyUpdate st u).sources_gathered = st.sources_gathered) ∧
    (∀ u, create_report st = .ok u →
      (applyUpdate st u).web_research_results = st.web_research_results ∧
      (applyUpdate st u).sources_gathered = st.sources_gathered) := by
  obtain ⟨r, sfmt, hw, hs⟩ := search_recipes_update_shape st cfg env
  refine ⟨⟨r, by simp [applyUpdate, hw]⟩, ⟨sfmt, by simp [applyUpdate, hs]⟩,
    by simp [applyUpdate, hw], by simp [applyUpdate, hs], ?_, ?_, ?_⟩
  · intro u hu
    obtain ⟨h1, h2⟩ := parse_recipe_ok_no_append hu
    exact ⟨by simp [applyUpdate, h1], by simp [applyUpdate, h2]⟩
  · intro u hu
    obtain ⟨h1, h2⟩ := find_stores_ok_no_append hu
    exact ⟨by simp [applyUpdate, h1], by simp [applyUpdate, h2]⟩
  · intro u hu
    obtain ⟨h1, h2⟩ := create_report_ok_no_append hu
    exact ⟨by simp [applyUpdate, h1], by simp [applyUpdate, h2]⟩

/-- Witness for C2: at the concrete post-stage-1 state of the happy-path run,
each later stage succeeds and the theorem's implications apply with their
hypotheses discharged. -/
theorem research_lists_append_only_witness :
    ∃ u2 u3 u4,
      parse_recipe st1W cfgDefault envHappy = .ok u2 ∧
      find_stores st1W cfgDefault envHappy = .ok u3 ∧
      create_report st1W = .ok u4 ∧
      (applyUpdate st1W (search_recipes st1W cfgDefault envHappy)).web_research_results.length =
        st1W.web_research_results.length + 1 ∧
      (applyUpdate st1W u2).web_research_results = st1W.web_research_results ∧
      (applyUpdate st1W u3).web_research_results = st1W.web_research_results ∧
      (applyUpdate st1W u4).sources_gathered = st1W.sources_gathered := by
  obtain ⟨u2, h2⟩ : ∃ u, parse_recipe st1W cfgDefault envHappy = .ok u := ⟨_, rfl⟩
  obtain ⟨u3, h3⟩ : ∃ u, find_stores st1W cfgDefault envHappy = .ok u := ⟨_, rfl⟩
  obtain ⟨u4, h4⟩ : ∃ u, create_report st1W = .ok u := ⟨_, rfl⟩
  have h := research_lists_append_only st1W cfgDefault envHappy
  exact ⟨u2, u3, u4, h2, h3, h4, h.2.2.1, (h.2.2.2.2.1 u2 h2).1,
    (h.2.2.2.2.2.1 u3 h3).1, (h.2.2.2.2.2.2 u4 h4).2⟩

/-- Field resolution in `from_runnable_config` agrees with the field-wise
precedence description. -/
theorem pickField_eq_resolutionSpec (env : List (String × String))
    (conf : List (String × PyVal)) (fname : String) (dflt : PyVal) :
    pickField env conf fname dflt = resolutionSpec env conf fname dflt := by
  unfold pickField resolveField resolutionSpec
  cases alookupS env (pyUpper fname) with
  | some s => simp [PyVal.isTruthy]
  | none =>
    cases alookupV conf fname with
    | some v => rfl
    | none => simp [PyVal.isTruthy]

/-- C3 counterexample: with `MODEL_NAME` set in the process environment and
an explicit per-run `model_name` override, `from_runnable_config` resolves to
the environment value — the explicit override does *not* take precedence, so
the claimed order (explicit > environment > default) is false. -/
theorem config_precedence_counterexample :
    (Configuration.from_runnable_config [("MODEL_NAME", "env-model")]
        [("model_name", PyVal.str "explicit-model")]).model_name =
      PyVal.str "env-model" ∧
    PyVal.str "env-model" ≠ PyVal.str "explicit-model" :=
  ⟨by decide, by decide⟩

/-- C3 amended: for every configuration field, the value resolved once per
run obeys the precedence: a truthy environment variable named by upper-casing
the field name takes precedence over the explicit per-run override, which
takes precedence over the built-in default; a falsy resolved value falls back
to the built-in default. -/
theorem config_precedence_env_over_explicit (env : List (String × String))
    (conf : List (String × PyVal)) :
    (Configuration.from_runnable_config env conf).max_web_research_loops =
      resolutionSpec env conf "max_web_research_loops" (.int 3) ∧
    (Configuration.from_runnable_config env conf).model_name =
      resolutionSpec env conf "model_name" (.str "gpt-4-0125-preview") ∧
    (Configuration.from_runnable_config env conf).search_api =
      resolutionSpec env conf "search_api" (.searchApi .TAVILY) ∧
    (Configuration.from_runnable_config env conf).max_store_recommendations =
      resolutionSpec env conf "max_store_recommendations" (.int 3) ∧
    (Configuration.from_runnable_config env conf).include_price_estimates =
      resolutionSpec env conf "include_price_estimates" (.bool true) ∧
    (Configuration.from_runnable_config env conf).max_recipe_alternatives =
      resolutionSpec env conf "max_recipe_alternatives" (.int 2) :=
  ⟨pickField_eq_resolutionSpec env conf _ _, pickField_eq_resolutionSpec env conf _ _,
   pickField_eq_resolutionSpec env conf _ _, pickField_eq_resolutionSpec env conf _ _,
   pickField_eq_resolutionSpec env conf _ _, pickField_eq_resolutionSpec env conf _ _⟩

/-- C10: any configuration field whose resolved value (from environment or
explicit override) is falsy — empty string, 0, or False — is silently
discarded and the built-in default used instead; in particular an explicit
`max_store_recommendations = 0` yields 3 and an explicit
`include_price_estimates = False` yields True. -/
theorem config_falsy_discarded (env : List (String × String))
    (conf : List (String × PyVal)) :
    ((resolveField env conf "max_store_recommendations").isTruthy = false →
      (Configuration.from_runnable_config env conf).max_store_recommendations = .int 3) ∧
    ((resolveField env conf "include_price_estimates").isTruthy = false →
      (Configuration.from_runnable_config env conf).include_price_estimates = .bool true) ∧
    ((resolveField env conf "max_web_research_loops").isTruthy = false →
      (Configuration.from_runnable_config env conf).max_web_research_loops = .int 3) ∧
    ((resolveField env conf "model_name").isTruthy = false →
      (Configuration.from_runnable_config env conf).model_name = .str "gpt-4-0125-preview") ∧
    ((resolveField env conf "search_api").isTruthy = false →
      (Configuration.from_runnable_config env conf).search_api = .searchApi .TAVILY) ∧
    ((resolveField env conf "max_recipe_alternatives").isTruthy = false →
      (Configuration.from_runnable_config env conf).max_recipe_alternatives = .int 2) ∧
    (Configuration.from_runnable_config []
      [("max_store_recommendations", PyVal.int 0)]).max_store_recommendations = .int 3 ∧
    (Configuration.from_runnable_config []
      [("include_price_estimates", PyVal.bool false)]).include_price_estimates = .bool true := by
  refine ⟨?_, ?_, ?_, ?_, ?_, ?_, by decide, by decide⟩ <;>
    intro hf <;>
    simp [Configuration.from_runnable_config, pickField, hf]

/-- Witness for C10: the falsy-value hypotheses discharged at the concrete
run configuration `max_store_recommendations = 0`,
`include_price_estimates = False`. -/
theorem config_falsy_discarded_witness :
    (Configuration.from_runnable_config []
      [("max_store_recommendations", PyVal.int 0),
       ("include_price_estimates", PyVal.bool false)]).max_store_recommendations = .int 3 ∧
    (Configuration.from_runnable_config []
      [("max_store_recommendations", PyVal.int 0),
       ("include_price_estimates", PyVal.bool false)]).include_price_estimates = .bool true := by
  have h := config_falsy_discarded []
    [("max_store_recommendations", PyVal.int 0), ("include_price_estimates", PyVal.bool false)]
  exact ⟨h.1 (by decide), h.2.1 (by decide)⟩

/-- C4 counterexample: an ingredient with an empty unit keeps the two spaces
around the now-empty component — `str.strip` only trims the ends — so the
claimed output `"- 1 egg"` (no double space) is false. -/
theorem shopping_list_double_space_counterexample :
    format_ingredients_list (.arr [.obj [("quantity", .str "1"), ("unit", .str ""),
      ("name", .str "egg")]]) = .ok "- 1  egg" ∧
    ("- 1  egg" : String) ≠ "- 1 egg" :=
  ⟨rfl, by decide⟩

/-- C4 amended: the shopping-list formatter maps each ingredient to the line
`"- <quantity> <unit> <name>"` with surrounding whitespace trimmed, but blank
components are not omitted — their separating spaces remain — so
`[{quantity:"2", unit:"cups", name:"flour"}]` gives `"- 2 cups flour"` while
`[{quantity:"1", unit:"", name:"egg"}]` gives `"- 1  egg"` with a double
space. -/
theorem shopping_list_format_amended :
    (∀ q u n : String,
      format_ingredients_list (.arr [.obj [("quantity", .str q), ("unit", .str u),
        ("name", .str n)]]) = .ok (pyStrip ("- " ++ q ++ " " ++ u ++ " " ++ n))) ∧
    format_ingredients_list (.arr [.obj [("quantity", .str "2"), ("unit", .str "cups"),
      ("name", .str "flour")]]) = .ok "- 2 cups flour" ∧
    format_ingredients_list (.arr [.obj [("quantity", .str "1"), ("unit", .str ""),
      ("name", .str "egg")]]) = .ok "- 1  egg" ∧
    format_ingredients_list (.arr
      [.obj [("quantity", .str "2"), ("unit", .str "cups"), ("name", .str "flour")],
       .obj [("quantity", .str "1"), ("unit", .str ""), ("name", .str "egg")]]) =
      .ok "- 2 cups flour\n- 1  egg" :=
  ⟨fun q u n => rfl, rfl, rfl, rfl⟩

/-- On a successful extraction response the store try block keeps exactly the
first `n` validated stores. -/
theorem find_storesTry_success {cfg : Configuration} {env : Env} {sj : Json}
    {l : List Json} {n : Int}
    (hp : env.storeParseLLM = .ok (.ok sj))
    (hobj : isObjWithKey sj "stores" = true)
    (hstores : jsonGetItem sj "stores" = .ok (.arr l))
    (hval : validateStores l = .ok ())
    (hn : cfg.max_store_recommendations = PyVal.int n)
    (hn0 : 0 ≤ n) :
    find_storesTry cfg env = .ok { store_recommendations := some (l.take n.toNat) } := by
  unfold find_storesTry
  rw [hp]
  simp only [Bind.bind, Except.bind, loads]
  simp only [hobj, Bool.not_true, Bool.false_eq_true, if_false]
  rw [hstores]
  simp only
  rw [hval]
  simp only
  rw [hn]
  simp only [pySliceTo, if_pos hn0]
  rfl

/-- C5: for every store list that passes the store stage's validation, the
stage's output is exactly the first N elements of the validated list in their
returned order, where N is the configured maximum; hence the recommendation
count never exceeds the configured maximum (whose built-in default is 3). -/
theorem store_recommendations_capped
    (st : MealPlanState) (cfg : Configuration) (env : Env)
    (lines : String) (qj q sr : Json) (sc : String) (sj : Json)
    (l : List Json) (n : Int)
    (h0 : ingredientNamesBlock st.ingredients = .ok lines)
    (hq : env.storeQueryLLM = .ok (.ok qj))
    (hget : jsonGetItem qj "query" = .ok q)
    (hs : (if cfg.search_api = PyVal.searchApi SearchAPI.TAVILY then env.tavilyStoreSearch
           else env.perplexityStoreSearch) = .ok sr)
    (hfmt : formatResultsBlock sr = .ok sc)
    (hp : env.storeParseLLM = .ok (.ok sj))
    (hobj : isObjWithKey sj "stores" = true)
    (hstores : jsonGetItem sj "stores" = .ok (.arr l))
    (hval : validateStores l = .ok ())
    (hn : cfg.max_store_recommendations = PyVal.int n)
    (hn0 : 0 ≤ n) :
    find_stores st cfg env = .ok { store_recommendations := some (l.take n.toNat) } ∧
    (l.take n.toNat).length ≤ n.toNat ∧
    (Configuration.from_runnable_config [] []).max_store_recommendations = PyVal.int 3 := by
  have htry := find_storesTry_success hp hobj hstores hval hn hn0
  refine ⟨?_, by rw [List.length_take]; exact min_le_left _ _, by decide⟩
  unfold find_stores
  rw [h0]
  simp only [Bind.bind, Except.bind]
  rw [hq]
  simp only [loads]
  rw [hget]
  simp only
  split
  · next hapi =>
    rw [if_pos hapi] at hs
    rw [hs]
    simp only
    rw [hfmt]
    simp only
    rw [htry]
  · next hapi =>
    rw [if_neg hapi] at hs
    rw [hs]
    simp only
    rw [hfmt]
    simp only
    rw [htry]

/-- Witness for C5: with max 3 (the default) and 5 validated stores returned,
exactly the first 3 are kept, in returned order. -/
theorem store_recommendations_capped_witness :
    find_stores st1W cfgDefault envFiveStores =
      .ok { store_recommendations := some (storesFiveW.take (Int.toNat 3)) } ∧
    (storesFiveW.take (Int.toNat 3)).length ≤ Int.toNat 3 ∧
    storesFiveW.take (Int.toNat 3) = [storeW "A", storeW "B", storeW "C"] := by
  have h := store_recommendations_capped st1W cfgDefault envFiveStores
    "" (.obj [("query", .str "grocery stores san diego"), ("specialty_items", .arr [])])
    (.str "grocery stores san diego")
    (.obj [("results", .arr [.obj [("title", .str "Stores"),
      ("content", .str "a store list"), ("url", .str "")]])])
    "Title: Stores\nContent: a store list\nURL: "
    (.obj [("stores", .arr storesFiveW)]) storesFiveW 3
    rfl rfl rfl rfl rfl rfl rfl rfl rfl rfl (by decide)
  exact ⟨h.1, h.2.1, rfl⟩

/-- A string concatenation contains its right part. -/
theorem strContains_appendRight (x pat : String) : strContains (x ++ pat) pat :=
  ⟨x, "", strEq_of_data (by simp [strAppend_data])⟩

/-- C6: at the recipe-query stage, every failure of the try block — in
particular a JSON parse failure, a response lacking the `query` key, or empty
search results — is caught inside the stage and replaced by the synthetic
single-entry batch whose content contains the failure message, with the
single source entry "Search failed"; the stage never raises (it is a total
function of the state and environment). -/
theorem recipe_search_failures_degrade (st : MealPlanState) (cfg : Configuration)
    (env : Env) :
    (∀ e, search_recipesTry st cfg env = .error e →
      search_recipes st cfg env = searchRecipesFallback e ∧
      (searchRecipesFallback e).web_research_results =
        [.obj [("results", .arr [.obj [("title", .str "Error in search"),
          ("content", .str ("Failed to search for recipes: " ++ pyErrStr e)),
          ("url", .str "")]])]] ∧
      strContains ("Failed to search for recipes: " ++ pyErrStr e) (pyErrStr e) ∧
      (searchRecipesFallback e).sources_gathered = ["Search failed"]) ∧
    (∀ m, env.recipeQueryLLM = .ok (.error m) →
      search_recipesTry st cfg env = .error (.jsonDecodeError m)) ∧
    (∀ j, env.recipeQueryLLM = .ok (.ok j) → isObjWithKey j "query" = false →
      search_recipesTry st cfg env = .error (.valueError "Invalid query format from LLM")) ∧
    (∀ j r, env.recipeQueryLLM = .ok (.ok j) → isObjWithKey j "query" = true →
      (if cfg.search_api = PyVal.searchApi SearchAPI.TAVILY then env.tavilyRecipeSearch
       else env.perplexityRecipeSearch) = .ok r →
      pyTruthy r = false →
      search_recipesTry st cfg env = .error (.valueError "No search results found")) := by
  refine ⟨?_, ?_, ?_, ?_⟩
  · intro e he
    refine ⟨?_, rfl, strContains_appendRight _ _, rfl⟩
    unfold search_recipes
    rw [he]
  · intro m hm
    unfold search_recipesTry
    rw [hm]
    simp [Bind.bind, Except.bind, loads]
  · intro j hj hk
    unfold search_recipesTry
    rw [hj]
    simp only [Bind.bind, Except.bind, loads]
    simp [hk]
  · intro j r hj hk hr ht
    unfold search_recipesTry
    rw [hj]
    simp only [Bind.bind, Except.bind, loads]
    simp only [hk, Bool.not_true, Bool.false_eq_true, if_false]
    split
    · next hapi =>
      rw [if_pos hapi] at hr
      rw [hr]
      simp [ht]
    · next hapi =>
      rw [if_neg hapi] at hr
      rw [hr]
      simp [ht]

/-- Witness for C6: the three enumerated failures at concrete environments,
each degraded to the synthetic fallback batch. -/
theorem recipe_search_failures_degrade_witness :
    search_recipes (initState inputSanDiego) cfgDefault envParseFailW =
      searchRecipesFallback (.jsonDecodeError "Expecting value: line 1 column 1 (char 0)") ∧
    search_recipesTry (initState inputSanDiego) cfgDefault envNoQueryW =
      .error (.valueError "Invalid query format from LLM") ∧
    search_recipesTry (initState inputSanDiego) cfgDefault envEmptySearchW =
      .error (.valueError "No search results found") := by
  have h1 := recipe_search_failures_degrade (initState inputSanDiego) cfgDefault envParseFailW
  have h2 := recipe_search_failures_degrade (initState inputSanDiego) cfgDefault envNoQueryW
  have h3 := recipe_search_failures_degrade (initState inputSanDiego) cfgDefault envEmptySearchW
  refine ⟨?_, ?_, ?_⟩
  · exact (h1.1 _ (h1.2.1 "Expecting value: line 1 column 1 (char 0)" rfl)).1
  · exact h2.2.2.1 (.obj [("rationale", .str "no query")]) rfl rfl
  · exact h3.2.2.2 (.obj [("query", .str "vegetarian pasta recipe"),
      ("rationale", .str "matches preferences")]) (.obj []) rfl rfl rfl rfl

/-- A stage-2 extraction body that fails to parse raises `json.JSONDecodeError`
inside the try block. -/
theorem parse_recipeTry_decode_fail (m : String) :
    parse_recipeTry (.error m) = .error (.jsonDecodeError m) := rfl

/-- A stage-2 extraction response on which the key check comes back false
raises `ValueError` inside the try block. -/
theorem parse_recipeTry_missing_keys {j : Json}
    (h : allKeysIn j ["recipe_name", "ingredients", "instructions"] = .ok false) :
    parse_recipeTry (.ok j) = .error (.valueError "Missing required keys in recipe data") := by
  unfold parse_recipeTry
  simp only [Bind.bind, Except.bind, loads]
  rw [h]
  simp

/-- C7: when the recipe-extraction response is not parseable as JSON, or is a
JSON value whose key-membership check determines that any of `recipe_name`,
`ingredients`, `instructions` is missing, the stage returns (without raising)
the fallback: a recipe name literally containing "Error in parsing", the
single placeholder ingredient `{quantity:"1", unit:"serving",
name:"ingredients not found"}`, and exactly one placeholder instruction. -/
theorem recipe_parse_fallback (st : MealPlanState) (cfg : Configuration)
    (env : Env) (b : Json) (sc : String)
    (hlast : st.web_research_results.getLast? = some b)
    (hfmt : formatResultsBlock b = .ok sc)
    (hbad : (∃ m, env.recipeParseLLM = .ok (.error m)) ∨
      (∃ j, env.recipeParseLLM = .ok (.ok j) ∧
        allKeysIn j ["recipe_name", "ingredients", "instructions"] = .ok false)) :
    parse_recipe st cfg env = .ok recipeFallbackUpdate ∧
    recipeFallbackUpdate.recipe_name = some (.str "Basic Recipe (Error in parsing)") ∧
    strContains "Basic Recipe (Error in parsing)" "Error in parsing" ∧
    recipeFallbackUpdate.ingredients = some (.arr [.obj [("quantity", .str "1"),
      ("unit", .str "serving"), ("name", .str "ingredients not found")]]) ∧
    ∃ step, recipeFallbackUpdate.instructions = some (.arr [step]) := by
  refine ⟨?_, rfl, ⟨"Basic Recipe (", ")", rfl⟩, rfl, ⟨_, rfl⟩⟩
  unfold parse_recipe
  rw [hlast]
  simp only [Bind.bind, Except.bind]
  rw [hfmt]
  simp only
  rcases hbad with ⟨m, hm⟩ | ⟨j, hj, hkeys⟩
  · rw [hm]
    simp only
    rw [parse_recipeTry_decode_fail]
    rfl
  · rw [hj]
    simp only
    rw [parse_recipeTry_missing_keys hkeys]
    rfl

/-- Witness for C7: the extraction body "not json" (a JSON decode failure) at
the concrete post-stage-1 state degrades to the placeholder recipe. -/
theorem recipe_parse_fallback_witness :
    parse_recipe st1W cfgDefault envRecipeNotJsonW = .ok recipeFallbackUpdate ∧
    strContains "Basic Recipe (Error in parsing)" "Error in parsing" := by
  have h := recipe_parse_fallback st1W cfgDefault envRecipeNotJsonW
    (.obj [("results", .arr [.obj [("title", .str "Pasta"),
      ("content", .str "A simple recipe"), ("url", .str "http://example.com")]])])
    "Title: Pasta\nContent: A simple recipe\nURL: http://example.com"
    rfl rfl (Or.inl ⟨"Expecting value: line 1 column 1 (char 0)", rfl⟩)
  exact ⟨h.1, h.2.2.1⟩

/-- Key membership never raises on a dict, so the per-store check of a
dict-shaped store always evaluates to a boolean. -/
theorem allKeysIn_obj_ok (kvs : List (String × Json)) :
    ∀ keys : List String, ∃ b, allKeysIn (.obj kvs) keys = .ok b
  | [] => ⟨true, rfl⟩
  | k :: ks => by
    unfold allKeysIn
    simp only [pyKeyIn, Bind.bind, Except.bind]
    cases hv : (alookupJ kvs k).isSome with
    | true =>
      obtain ⟨b, hb⟩ := allKeysIn_obj_ok kvs ks
      exact ⟨b, by simp [hb]⟩
    | false => exact ⟨false, by simp [pure, Except.pure]⟩

/-- When every store is a dict and some store fails the key check, the
validation loop raises a `ValueError`, abandoning the whole list. -/
theorem validateStores_missing : ∀ l : List Json,
    (∀ s ∈ l, ∃ kvs, s = Json.obj kvs) →
    (∃ s ∈ l, checkStoreKeys s = .ok false) →
    ∃ m, validateStores l = .error (.valueError m)
  | [], _, hmiss => by simp at hmiss
  | s :: rest, hall, hmiss => by
    obtain ⟨kvs, hkvs⟩ := hall s (List.mem_cons_self s rest)
    obtain ⟨b, hb⟩ := allKeysIn_obj_ok kvs ["name", "address", "specialty_items"]
    have hb' : checkStoreKeys s = .ok b := by rw [hkvs]; exact hb
    cases b with
    | false =>
      refine ⟨"Store missing required keys: " ++ pyStrOf s, ?_⟩
      unfold validateStores
      rw [hb']
      simp [Bind.bind, Except.bind]
    | true =>
      have hmiss' : ∃ s' ∈ rest, checkStoreKeys s' = .ok false := by
        obtain ⟨s', hmem, hs'⟩ := hmiss
        rcases List.mem_cons.mp hmem with heq | hmem'
        · rw [heq, hb'] at hs'
          exact absurd (Except.ok.inj hs') (by decide)
        · exact ⟨s', hmem', hs'⟩
      obtain ⟨m, hm⟩ := validateStores_missing rest
        (fun x hx => hall x (List.mem_cons_of_mem _ hx)) hmiss'
      refine ⟨m, ?_⟩
      unfold validateStores
      rw [hb']
      simp [Bind.bind, Except.bind, hm]

/-- A validation `ValueError` inside the stage-3 try block surfaces as the
try block's error. -/
theorem find_storesTry_valfail {cfg : Configuration} {env : Env} {sj : Json}
    {l : List Json} {m : String}
    (hp : env.storeParseLLM = .ok (.ok sj))
    (hobj : isObjWithKey sj "stores" = true)
    (hstores : jsonGetItem sj "stores" = .ok (.arr l))
    (hviol : validateStores l = .error (.valueError m)) :
    find_storesTry cfg env = .error (.valueError m) := by
  unfold find_storesTry
  rw [hp]
  simp only [Bind.bind, Except.bind, loads]
  simp only [hobj, Bool.not_true, Bool.false_eq_true, if_false]
  rw [hstores]
  simp only
  rw [hviol]

/-- The store stage reduces to the catch of its try block once the uncaught
first half (prompt, query call, parse, subscription, search, flattening)
succeeds. -/
theorem find_stores_prelude {st : MealPlanState} {cfg : Configuration} {env : Env}
    {lines : String} {qj q sr : Json} {sc : String}
    (h0 : ingredientNamesBlock st.ingredients = .ok lines)
    (hq : env.storeQueryLLM = .ok (.ok qj))
    (hget : jsonGetItem qj "query" = .ok q)
    (hs : (if cfg.search_api = PyVal.searchApi SearchAPI.TAVILY then env.tavilyStoreSearch
           else env.perplexityStoreSearch) = .ok sr)
    (hfmt : formatResultsBlock sr = .ok sc) :
    find_stores st cfg env =
      (match find_storesTry cfg env with
       | .ok u => .ok u
       | .error e =>
         if catchesJSONDecodeOrValueError e then
           .ok { store_recommendations := some [fallbackStore st.location] }
         else
           .error e) := by
  unfold find_stores
  rw [h0]
  simp only [Bind.bind, Except.bind]
  rw [hq]
  simp only [loads]
  rw [hget]
  simp only
  split
  · next hapi =>
    rw [if_pos hapi] at hs
    rw [hs]
    simp only
    rw [hfmt]
  · next hapi =>
    rw [if_neg hapi] at hs
    rw [hs]
    simp only
    rw [hfmt]

/-- C8: if any element of the extracted store list is a store record missing
one of the required keys `name`, `address`, `specialty_items`, the store
stage abandons the entire list and returns exactly one fallback entry named
"Local Grocery Store" whose address contains the input location verbatim —
it does not merely drop the offending element. -/
theorem store_missing_key_fallback
    (st : MealPlanState) (cfg : Configuration) (env : Env)
    (lines : String) (qj q sr : Json) (sc : String) (sj : Json)
    (l : List Json) (loc : String)
    (h0 : ingredientNamesBlock st.ingredients = .ok lines)
    (hq : env.storeQueryLLM = .ok (.ok qj))
    (hget : jsonGetItem qj "query" = .ok q)
    (hs : (if cfg.search_api = PyVal.searchApi SearchAPI.TAVILY then env.tavilyStoreSearch
           else env.perplexityStoreSearch) = .ok sr)
    (hfmt : formatResultsBlock sr = .ok sc)
    (hp : env.storeParseLLM = .ok (.ok sj))
    (hobj : isObjWithKey sj "stores" = true)
    (hstores : jsonGetItem sj "stores" = .ok (.arr l))
    (hall : ∀ s ∈ l, ∃ kvs, s = Json.obj kvs)
    (hmiss : ∃ s ∈ l, checkStoreKeys s = .ok false)
    (hloc : st.location = some loc) :
    find_stores st cfg env =
      .ok { store_recommendations := some [fallbackStore st.location] } ∧
    fallbackStore st.location = .obj [("name", .str "Local Grocery Store"),
      ("address", .str ("Search for grocery stores near " ++ loc)),
      ("specialty_items", .arr [.str "Unable to parse store data"])] ∧
    strContains ("Search for grocery stores near " ++ loc) loc := by
  obtain ⟨m, hm⟩ := validateStores_missing l hall hmiss
  refine ⟨?_, by simp [fallbackStore, hloc], strContains_appendRight _ _⟩
  rw [find_stores_prelude h0 hq hget hs hfmt,
    find_storesTry_valfail hp hobj hstores hm]
  simp [catchesJSONDecodeOrValueError]

/-- Witness for C8: a five-line list whose second store lacks
`specialty_items` makes the stage discard the compliant first store too and
return only the "Local Grocery Store" placeholder for San Diego. -/
theorem store_missing_key_fallback_witness :
    find_stores st1W cfgDefault envStoreMissingKeyW =
      .ok { store_recommendations := some [fallbackStore st1W.location] } ∧
    strContains ("Search for grocery stores near " ++ "San Diego") "San Diego" := by
  have h := store_missing_key_fallback st1W cfgDefault envStoreMissingKeyW
    "" (.obj [("query", .str "grocery stores san diego"), ("specialty_items", .arr [])])
    (.str "grocery stores san diego")
    (.obj [("results", .arr [.obj [("title", .str "Stores"),
      ("content", .str "a store list"), ("url", .str "")]])])
    "Title: Stores\nContent: a store list\nURL: "
    (.obj [("stores", .arr [storeW "A",
      .obj [("name", .str "B"), ("address", .str "2 Main St")]])])
    [storeW "A", .obj [("name", .str "B"), ("address", .str "2 Main St")]]
    "San Diego"
    rfl rfl rfl rfl rfl rfl rfl rfl
    (by
      intro s hs
      rcases List.mem_cons.mp hs with h1 | h2
      · exact ⟨_, by rw [h1]; rfl⟩
      · rcases List.mem_cons.mp h2 with h2a | h2b
        · exact ⟨_, h2a⟩
        · cases h2b)
    ⟨.obj [("name", .str "B"), ("address", .str "2 Main St")],
      List.mem_cons_of_mem _ (List.mem_cons_self _ _), rfl⟩
    rfl
  exact ⟨h.1, h.2.2⟩

/-- C9 counterexample: an exception raised by the stage-3 extraction model
call itself (here a network failure) is not caught — the stage errors instead
of degrading to the fallback store entry, so the claim that a failure in the
later extraction call is caught is false. -/
theorem store_extraction_raise_counterexample :
    find_stores st1W cfgDefault envStoreRaiseW = .error (.apiError "connection reset") ∧
    ∀ u, find_stores st1W cfgDefault envStoreRaiseW ≠ .ok u := by
  refine ⟨rfl, ?_⟩
  intro u h
  rw [show find_stores st1W cfgDefault envStoreRaiseW =
    .error (.apiError "connection reset") from rfl] at h
  exact Except.noConfusion h

/-- A raised extraction model call surfaces as the try block's error. -/
theorem find_storesTry_raise {cfg : Configuration} {env : Env} {e : PyErr}
    (hp : env.storeParseLLM = .error e) :
    find_storesTry cfg env = .error e := by
  unfold find_storesTry
  rw [hp]
  simp [Bind.bind, Except.bind]

/-- An extraction body that fails to parse raises `json.JSONDecodeError`
inside the stage-3 try block. -/
theorem find_storesTry_decode_fail {cfg : Configuration} {env : Env} {m : String}
    (hp : env.storeParseLLM = .ok (.error m)) :
    find_storesTry cfg env = .error (.jsonDecodeError m) := by
  unfold find_storesTry
  rw [hp]
  simp [Bind.bind, Except.bind, loads]

/-- C9 amended: in the store stage, a failure raised during the initial
query-generation model call, its JSON parse, or the subsequent search call is
not caught and propagates out, aborting the run with no final report; a
JSON-decode (or validation) failure in the later extraction phase is caught
and degraded to the fallback store entry, but an exception raised by the
extraction model call itself (one that is not `json.JSONDecodeError` or
`ValueError`) also propagates. -/
theorem store_stage_error_asymmetry (st : MealPlanState) (cfg : Configuration)
    (env : Env) (lines : String)
    (h0 : ingredientNamesBlock st.ingredients = .ok lines) :
    (∀ e, env.storeQueryLLM = .error e → find_stores st cfg env = .error e) ∧
    (∀ m, env.storeQueryLLM = .ok (.error m) →
      find_stores st cfg env = .error (.jsonDecodeError m)) ∧
    (∀ qj q e, env.storeQueryLLM = .ok (.ok qj) → jsonGetItem qj "query" = .ok q →
      (if cfg.search_api = PyVal.searchApi SearchAPI.TAVILY then env.tavilyStoreSearch
       else env.perplexityStoreSearch) = .error e →
      find_stores st cfg env = .error e) ∧
    (∀ qj q sr sc m, env.storeQueryLLM = .ok (.ok qj) → jsonGetItem qj "query" = .ok q →
      (if cfg.search_api = PyVal.searchApi SearchAPI.TAVILY then env.tavilyStoreSearch
       else env.perplexityStoreSearch) = .ok sr →
      formatResultsBlock sr = .ok sc →
      env.storeParseLLM = .ok (.error m) →
      find_stores st cfg env =
        .ok { store_recommendations := some [fallbackStore st.location] }) ∧
    (∀ qj q sr sc m, env.storeQueryLLM = .ok (.ok qj) → jsonGetItem qj "query" = .ok q →
      (if cfg.search_api = PyVal.searchApi SearchAPI.TAVILY then env.tavilyStoreSearch
       else env.perplexityStoreSearch) = .ok sr →
      formatResultsBlock sr = .ok sc →
      env.storeParseLLM = .error (.apiError m) →
      find_stores st cfg env = .error (.apiError m)) ∧
    (∀ cfg2 env2 input st2 e2, runThroughStage2 cfg2 env2 input = .ok st2 →
      find_stores st2 cfg2 env2 = .error e2 →
      runPipeline cfg2 env2 input = .error e2) := by
  refine ⟨?_, ?_, ?_, ?_, ?_, ?_⟩
  · intro e he
    unfold find_stores
    rw [h0]
    simp only [Bind.bind, Except.bind]
    rw [he]
  · intro m hm
    unfold find_stores
    rw [h0]
    simp only [Bind.bind, Except.bind]
    rw [hm]
    simp [loads]
  · intro qj q e hq hget hs
    unfold find_stores
    rw [h0]
    simp only [Bind.bind, Except.bind]
    rw [hq]
    simp only [loads]
    rw [hget]
    simp only
    split
    · next hapi => rw [if_pos hapi] at hs; rw [hs]
    · next hapi => rw [if_neg hapi] at hs; rw [hs]
  · intro qj q sr sc m hq hget hs hfmt hp
    rw [find_stores_prelude h0 hq hget hs hfmt, find_storesTry_decode_fail hp]
    simp [catchesJSONDecodeOrValueError]
  · intro qj q sr sc m hq hget hs hfmt hp
    rw [find_stores_prelude h0 hq hget hs hfmt, find_storesTry_raise hp]
    simp [catchesJSONDecodeOrValueError]
  · intro cfg2 env2 input st2 e2 h2 hf
    unfold runPipeline runThroughStage3
    rw [h2]
    simp only [Bind.bind, Except.bind]
    rw [hf]

/-- Witness for C9 (amended): each propagation and degradation mode at
concrete fixtures, including the whole-run abort with no final report. -/
theorem store_stage_error_asymmetry_witness :
    find_stores st2W cfgDefault envStoreQueryRaiseW = .error (.apiError "timeout") ∧
    find_stores st2W cfgDefault envStoreQueryNotJsonW =
      .error (.jsonDecodeError "Expecting value") ∧
    find_stores st2W cfgDefault envStoreSearchRaiseW = .error (.apiError "search down") ∧
    find_stores st2W cfgDefault envStoreParseNotJsonW =
      .ok { store_recommendations := some [fallbackStore st2W.location] } ∧
    find_stores st2W cfgDefault envStoreRaiseW = .error (.apiError "connection reset") ∧
    runPipeline cfgDefault envStoreQueryRaiseW inputSanDiego =
      .error (.apiError "timeout") := by
  have h1 := store_stage_error_asymmetry st2W cfgDefault envStoreQueryRaiseW "- flour" rfl
  have h2 := store_stage_error_asymmetry st2W cfgDefault envStoreQueryNotJsonW "- flour" rfl
  have h3 := store_stage_error_asymmetry st2W cfgDefault envStoreSearchRaiseW "- flour" rfl
  have h4 := store_stage_error_asymmetry st2W cfgDefault envStoreParseNotJsonW "- flour" rfl
  have h5 := store_stage_error_asymmetry st2W cfgDefault envStoreRaiseW "- flour" rfl
  have hq1 := h1.1 (.apiError "timeout") rfl
  refine ⟨hq1, ?_, ?_, ?_, ?_, ?_⟩
  · exact h2.2.1 "Expecting value" rfl
  · exact h3.2.2.1 (.obj [("query", .str "grocery stores san diego"),
      ("specialty_items", .arr [])]) (.str "grocery stores san diego")
      (.apiError "search down") rfl rfl rfl
  · exact h4.2.2.2.1 (.obj [("query", .str "grocery stores san diego"),
      ("specialty_items", .arr [])]) (.str "grocery stores san diego")
      (.obj [("results", .arr [.obj [("title", .str "Stores"),
        ("content", .str "a store list"), ("url", .str "")]])])
      "Title: Stores\nContent: a store list\nURL: " "Expecting value"
      rfl rfl rfl rfl rfl
  · exact h5.2.2.2.2.1 (.obj [("query", .str "grocery stores san diego"),
      ("specialty_items", .arr [])]) (.str "grocery stores san diego")
      (.obj [("results", .arr [.obj [("title", .str "Stores"),
        ("content", .str "a store list"), ("url", .str "")]])])
      "Title: Stores\nContent: a store list\nURL: " "connection reset"
      rfl rfl rfl rfl rfl
  · exact h1.2.2.2.2.2 cfgDefault envStoreQueryRaiseW inputSanDiego st2W
      (.apiError "timeout") rfl hq1
